import Mathlib

/-!
Shallow embedding of the LangGraph workflow code of the
`gestalt_question_generator` repository, together with proofs about it.

Embedded source files:
* `src/langgraph_server/src/code_validation/graph.py` (the bounded
  refinement loop: `generate_code`, `validate_code`, `should_refine`,
  `accept_code`, and the graph wiring `START -> validate_code`,
  conditional edges from `validate_code`, `generate_code -> validate_code`
  via `Command(goto=...)`).
* `src/langgraph_server/src/code_generator/graphs/question_metadata_graph.py`
  (pydantic state with defaults, `generate_question_metadata`, a one node
  graph).
* `src/langgraph_server/src/code_generator/graphs/gestalt_generator.py`
  (the top-level composition graph: classification, question html, the
  conditional fan-out `router`, three generator branches, and the
  `generate_info_json` join).
* The `Annotated` merge combinators of the state declarations
  (`operator.add` on lists, `lambda a, b: {**a, **b}` on the files dict).

External collaborators (chat models, the vector store, the LangSmith
prompt client) are parameters of the embedded node functions: each node is
a function of the state and of the collaborator outputs, exactly as the
source computes them.
-/

/-- Python `dict[str, str]`, modelled as a partial map.  Python dict
equality compares the key/value mapping, which this model preserves. -/
def PyDict : Type := String → Option String

/-- The empty Python dict `{}` (written without literal braces). -/
def emptyDict : PyDict := fun _ => none

/-- A one entry Python dict. -/
def dictSingle (k v : String) : PyDict :=
  fun k' => if k' = k then some v else none

/-- The files combinator `lambda a, b: {**a, **b}` from
`gestalt_generator.State`: a right biased union, keys of `b` win. -/
def dictMerge (a b : PyDict) : PyDict :=
  fun k =>
    match b k with
    | some v => some v
    | none => a k

/-- `operator.add` on Python lists: concatenation. -/
def operatorAdd {α : Type} (a b : List α) : List α := a ++ b

/-- `QuestionTypes` literal from `src/langgraph_server/src/models/question.py`. -/
inductive QuestionTypes where
  | conceptual
  | computational
  | derivation
  | analysis
  | design
deriving DecidableEq

/-- `Question` pydantic model from `src/langgraph_server/src/models/question.py`. -/
structure Question where
  question_text : String
  solution_guide : Option String
  final_answer : Option String
  question_html : String
deriving DecidableEq

/-- A LangChain `Document` (page content plus a metadata dict). -/
structure Document where
  page_content : String
  metadata : PyDict

namespace CodeValidation

/-- `State` of `src/langgraph_server/src/code_validation/graph.py`:
`prompt`, `generated_code`, `validation_errors` (annotated with
`operator.add`), `refinement_count`, `final_code : str | None`. -/
structure State where
  prompt : String
  generated_code : String
  validation_errors : List String
  refinement_count : Nat
  final_code : Option String
deriving DecidableEq

/-- The structured-output generation model call inside `generate_code`:
given the state (the source builds its prompt from `prompt`,
`validation_errors` and `generated_code`), it returns `CodeResponse.code`. -/
def GenModel : Type := State → String

/-- The structured-output evaluator model call inside `validate_code`:
given the state (the source builds its validation prompt from `prompt` and
`generated_code`), it returns `ValidationResult.errors`, or fails with an
exception (`Except.error`) when it cannot produce a verdict. -/
def CriticModel : Type := State → Except Unit (List String)

/-- Node `generate_code`: produce code, update `generated_code` and
increment `refinement_count`; the returned `Command` always has
`goto="validate_code"`. -/
def generate_code (gen : GenModel) (s : State) : State :=
  { s with
    generated_code := gen s
    refinement_count := s.refinement_count + 1 }

/-- Node `validate_code`: ask the evaluator model for errors and update
`validation_errors`; the channel is annotated with `operator.add`, so the
update is appended to the prior value.  The source has no exception
handler, so a critic failure propagates. -/
def validate_code (critic : CriticModel) (s : State) : Except Unit State :=
  match critic s with
  | Except.error e => Except.error e
  | Except.ok errs =>
      Except.ok { s with
        validation_errors := operatorAdd s.validation_errors errs }

/-- Return values of `should_refine` (`Literal["accept", "generate_code"]`). -/
inductive Decision where
  | accept
  | generate_code
deriving DecidableEq

/-- Conditional edge function `should_refine`: accept once
`refinement_count >= 3`, accept when `validation_errors` is empty
(falsy), otherwise generate again. -/
def should_refine (s : State) : Decision :=
  if 3 ≤ s.refinement_count then Decision.accept
  else if s.validation_errors.isEmpty then Decision.accept
  else Decision.generate_code

/-- Node `accept` (`accept_code`): copy `generated_code` into `final_code`. -/
def accept_code (s : State) : State :=
  { s with final_code := some s.generated_code }

/-- The nodes of the compiled validation graph, plus the `END` marker. -/
inductive VNode where
  | generate_code
  | validate_code
  | accept
  | fin
deriving DecidableEq

/-- The conditional edge mapping
`{"accept": "accept", "generate_code": "generate_code"}`. -/
def decisionTarget : Decision → VNode
  | Decision.accept => VNode.accept
  | Decision.generate_code => VNode.generate_code

/-- Errors observable by the caller of `graph.invoke`. -/
inductive RunError where
  | taskFailed
  | fuelExhausted
deriving DecidableEq

/-- The outcome of an invocation: the final state, the list of executed
nodes in execution order, and the code produced by each execution of
`generate_code`, in order. -/
structure RunResult where
  final : State
  trace : List VNode
  genOutputs : List String
deriving DecidableEq

/-- Sequential execution of the compiled validation graph, with fuel.
Routing follows the source wiring: the conditional edges of
`validate_code` use `should_refine` on the post-update state, and
`generate_code` always continues at `validate_code` via its `Command`
(its static edge to `END` is unreachable before the loop exits). -/
def runV (critic : CriticModel) (gen : GenModel) :
    Nat → VNode → State → List VNode → List String → Except RunError RunResult
  | 0, _, _, _, _ => Except.error RunError.fuelExhausted
  | Nat.succ n, node, s, tr, gouts =>
    match node with
    | VNode.fin => Except.ok ⟨s, tr.reverse, gouts.reverse⟩
    | VNode.validate_code =>
        match validate_code critic s with
        | Except.error _ => Except.error RunError.taskFailed
        | Except.ok s' =>
            runV critic gen n (decisionTarget (should_refine s')) s'
              (VNode.validate_code :: tr) gouts
    | VNode.generate_code =>
        let s' := generate_code gen s
        runV critic gen n VNode.validate_code s'
          (VNode.generate_code :: tr) (s'.generated_code :: gouts)
    | VNode.accept =>
        runV critic gen n VNode.fin (accept_code s) (VNode.accept :: tr) gouts

/-- `graph.invoke`: execution starts at `validate_code`
(`workflow.add_edge(START, "validate_code")`). -/
def invoke (critic : CriticModel) (gen : GenModel) (fuel : Nat) (s : State) :
    Except RunError RunResult :=
  runV critic gen fuel VNode.validate_code s [] []

/-- A partial state update for the validation graph's state; a `none`
field is absent from the update. -/
structure Update where
  prompt : Option String := none
  generated_code : Option String := none
  validation_errors : Option (List String) := none
  refinement_count : Option Nat := none
  final_code : Option (Option String) := none
deriving DecidableEq

/-- Merge of a partial update: `validation_errors` is combined with its
declared `operator.add` reducer; every other field is a plain
(overwrite) channel; absent fields pass through from the base. -/
def applyUpdate (s : State) (u : Update) : State :=
  { prompt := u.prompt.getD s.prompt
    generated_code := u.generated_code.getD s.generated_code
    validation_errors :=
      match u.validation_errors with
      | some errs => operatorAdd s.validation_errors errs
      | none => s.validation_errors
    refinement_count := u.refinement_count.getD s.refinement_count
    final_code :=
      match u.final_code with
      | some f => f
      | none => s.final_code }

end CodeValidation

namespace CodeValidation

/-- A critic stub that reports no errors on every attempt. -/
def passCritic : CriticModel := fun _ => Except.ok []

/-- A critic stub that always reports one error. -/
def errCritic : CriticModel := fun _ => Except.ok ["missing error handling"]

/-- A critic stub that itself fails (cannot produce a verdict). -/
def failCritic : CriticModel := fun _ => Except.error ()

/-- A deterministic generation stub. -/
def echoGen : GenModel := fun s => s.generated_code ++ "+"

/-- An initial state as the callers build it (`refinement_count` 0, empty
`validation_errors`, `final_code` set to the empty string). -/
def seedState : State :=
  ⟨"Refactor this function.", "seed", [], 0, some ""⟩

end CodeValidation

namespace QuestionMetadataGraph

/-- `QuestionMetaData` pydantic model from
`src/langgraph_server/src/code_generator/graphs/question_metadata_graph.py`. -/
structure QuestionMetaData where
  title : String
  question_types : List QuestionTypes := []
  topics : List String := []
  isAdaptive : Bool
deriving DecidableEq

/-- The pydantic `State` of the question-metadata graph: `metadata` and
`isAdaptive` carry declared defaults of `None`, substituted when the
field is not supplied at construction. -/
structure State where
  question : Question
  metadata : Option QuestionMetaData := none
  isAdaptive : Option Bool := none
deriving DecidableEq

/-- The structured-output classification model call inside
`generate_question_metadata`: the prompt is built from
`question.question_text`. -/
def Classifier : Type := String → QuestionMetaData

/-- Node `generate_question_metadata`: classify, then override the
produced `isAdaptive` with the caller-supplied value when the state's
`isAdaptive` is not `None`. -/
def generate_question_metadata (classifier : Classifier) (s : State) :
    QuestionMetaData :=
  let metadata := classifier s.question.question_text
  match s.isAdaptive with
  | some v => { metadata with isAdaptive := v }
  | none => metadata

/-- `app.invoke` for the one node graph
(`START -> generate_question_metadata -> END`): the node's update
`{"metadata": ...}` is an overwrite of the `metadata` field. -/
def invoke (classifier : Classifier) (s : State) : State :=
  { s with metadata := some (generate_question_metadata classifier s) }

end QuestionMetadataGraph

namespace ServerJsGraph

/-- The read `state.get("server_js", "") or ""` performed by
`improve_code` in
`src/langgraph_server/src/code_generator/graphs/server_js_graph.py`:
`none` models a missing or `None` `server_js`, for which the read
silently yields the empty string instead of failing. -/
def generatedCodeRead (server_js : Option String) : String :=
  server_js.getD ""

end ServerJsGraph

namespace Gestalt

open QuestionMetadataGraph (QuestionMetaData)

/-- The top-level `State` of
`src/langgraph_server/src/code_generator/graphs/gestalt_generator.py`:
`files` is annotated with `lambda a, b: dictMerge a b`. -/
structure State where
  question : Question
  metadata : Option QuestionMetaData
  isAdaptive : Bool
  files : PyDict

/-- The input state built by `classify_question` for the metadata
sub-graph: only `question` and `metadata` are supplied; `isAdaptive` is
left to the pydantic default (`none`). -/
def classifyInputState (q : Question) : QuestionMetadataGraph.State :=
  { question := q, metadata := none }

/-- The external collaborators of the top-level graph: the metadata
classifier model and the four generator sub-graphs, each invoked with the
current `question` and `isAdaptive` flag. -/
structure Tasks where
  classifier : QuestionMetadataGraph.Classifier
  question_html_task : Question → Bool → String
  solution_html_task : Question → Bool → String
  server_js_task : Question → Bool → String
  server_py_task : Question → Bool → String

/-- A partial state update returned by a node.  A `none` field is absent
from the update. -/
structure Update where
  question : Option Question := none
  metadata : Option (Option QuestionMetaData) := none
  files : Option PyDict := none

/-- Merge of a partial update into the state: `question` and `metadata`
are plain (overwrite) channels, `files` is combined with its declared
`lambda a, b: dictMerge a b` reducer; absent fields pass through. -/
def applyUpdate (s : State) (u : Update) : State :=
  { question := u.question.getD s.question
    metadata :=
      match u.metadata with
      | some m => m
      | none => s.metadata
    isAdaptive := s.isAdaptive
    files :=
      match u.files with
      | some f => dictMerge s.files f
      | none => s.files }

/-- JSON rendering of a boolean. -/
def boolStr : Bool → String
  | true => "true"
  | false => "false"

/-- JSON rendering of a list of strings. -/
def jsonStrList (l : List String) : String :=
  "[" ++ String.intercalate ", " (l.map (fun s => "\x22" ++ s ++ "\x22")) ++ "]"

/-- Rendering of a `QuestionTypes` literal. -/
def questionTypeStr : QuestionTypes → String
  | QuestionTypes.conceptual => "conceptual"
  | QuestionTypes.computational => "computational"
  | QuestionTypes.derivation => "derivation"
  | QuestionTypes.analysis => "analysis"
  | QuestionTypes.design => "design"

/-- `json.dumps` of the info metadata built by `generate_info_json`: the
model dump of the classification metadata plus `ai_generated`, with
`languages` and `isAdaptive` set from the state's flag. -/
def infoJsonStr (m : QuestionMetaData) (adaptive : Bool) : String :=
  "\x7b\x22title\x22: \x22" ++ m.title ++ "\x22, \x22question_types\x22: " ++
    jsonStrList (m.question_types.map questionTypeStr) ++
    ", \x22topics\x22: " ++ jsonStrList m.topics ++
    ", \x22isAdaptive\x22: " ++ boolStr adaptive ++
    ", \x22ai_generated\x22: true, \x22languages\x22: " ++
    (if adaptive then "[\x22javascript\x22, \x22python\x22]" else "[]") ++ "\x7d"

/-- The nodes of the top-level graph. -/
inductive GNode where
  | classify_question
  | generate_question_html
  | generate_solution_html
  | generate_server_js
  | generate_server_py
  | generate_info_json
deriving DecidableEq

/-- Node failures: `assertionError` models the `assert metadata`
statements; the other two are executor-internal conditions. -/
inductive GErr where
  | assertionError
  | missingTask
  | fuelExhausted
deriving DecidableEq

/-- Node `classify_question`: invoke the metadata sub-graph on
`question` (without supplying `isAdaptive`) and return its `metadata`. -/
def classify_question (t : Tasks) (s : State) : Except GErr Update :=
  let result := QuestionMetadataGraph.invoke t.classifier (classifyInputState s.question)
  Except.ok { metadata := some result.metadata }

/-- Node `generate_question_html`: `assert metadata`, run the
question-html sub-graph, overwrite `question` with a copy whose
`question_html` is the result, and contribute `question.html` to `files`. -/
def generate_question_html (t : Tasks) (s : State) : Except GErr Update :=
  match s.metadata with
  | none => Except.error GErr.assertionError
  | some _ =>
      let qh := t.question_html_task s.question s.isAdaptive
      Except.ok
        { question := some { s.question with question_html := qh }
          files := some (dictSingle "question.html" qh) }

/-- Node `generate_solution_html`. -/
def generate_solution_html (t : Tasks) (s : State) : Except GErr Update :=
  match s.metadata with
  | none => Except.error GErr.assertionError
  | some _ =>
      Except.ok
        { files := some (dictSingle "solution.html"
            (t.solution_html_task s.question s.isAdaptive)) }

/-- Node `generate_server_js`. -/
def generate_server_js (t : Tasks) (s : State) : Except GErr Update :=
  match s.metadata with
  | none => Except.error GErr.assertionError
  | some _ =>
      Except.ok
        { files := some (dictSingle "server.js"
            (t.server_js_task s.question s.isAdaptive)) }

/-- Node `generate_server_py`. -/
def generate_server_py (t : Tasks) (s : State) : Except GErr Update :=
  match s.metadata with
  | none => Except.error GErr.assertionError
  | some _ =>
      Except.ok
        { files := some (dictSingle "server.py"
            (t.server_py_task s.question s.isAdaptive)) }

/-- Node `generate_info_json`: `assert metadata`, then contribute
`info.json` built from the metadata and the state's `isAdaptive` flag. -/
def generate_info_json (_t : Tasks) (s : State) : Except GErr Update :=
  match s.metadata with
  | none => Except.error GErr.assertionError
  | some m =>
      Except.ok { files := some (dictSingle "info.json" (infoJsonStr m s.isAdaptive)) }

/-- Dispatch table from node name to node function. -/
def nodeFn (t : Tasks) : GNode → State → Except GErr Update
  | GNode.classify_question => classify_question t
  | GNode.generate_question_html => generate_question_html t
  | GNode.generate_solution_html => generate_solution_html t
  | GNode.generate_server_js => generate_server_js t
  | GNode.generate_server_py => generate_server_py t
  | GNode.generate_info_json => generate_info_json t

/-- Conditional router after `generate_question_html`: `assert metadata`,
then fan out on the state's `isAdaptive` flag, in the declared order
`[generate_server_py, generate_server_js, generate_solution_html]`. -/
def router (s : State) : Except GErr (List GNode) :=
  match s.metadata with
  | none => Except.error GErr.assertionError
  | some _ =>
      if s.isAdaptive then
        Except.ok [GNode.generate_server_py, GNode.generate_server_js,
          GNode.generate_solution_html]
      else
        Except.ok [GNode.generate_solution_html]

/-- Declared successors of each node, per the source's `add_edge` /
`add_conditional_edges` wiring.  Conditional routing is evaluated on the
post-update state.  `generate_info_json` goes to `END` (no successors). -/
def successors (s : State) : GNode → Except GErr (List GNode)
  | GNode.classify_question => Except.ok [GNode.generate_question_html]
  | GNode.generate_question_html => router s
  | GNode.generate_solution_html => Except.ok [GNode.generate_info_json]
  | GNode.generate_server_js => Except.ok [GNode.generate_info_json]
  | GNode.generate_server_py => Except.ok [GNode.generate_info_json]
  | GNode.generate_info_json => Except.ok []

/-- Append new frontier entries, dropping nodes already present, so a
join target is activated once per superstep. -/
def dedupAppend (acc : List GNode) (new : List GNode) : List GNode :=
  new.foldl (fun a n => if n ∈ a then a else a ++ [n]) acc

/-- Compute the next frontier from the declared successor lists of the
completed frontier, in declared edge order. -/
def nextFrontier (s : State) : List GNode → List GNode → Except GErr (List GNode)
  | [], acc => Except.ok acc
  | n :: rest, acc =>
      match successors s n with
      | Except.error e => Except.error e
      | Except.ok succs => nextFrontier s rest (dedupAppend acc succs)

/-- Modelled from the spec: the Executor (spec sections 4.3 and 5) lives
in the external langgraph dependency, not under `src/`.  Updates of a
superstep are merged in declared edge order — the frontier order — by
looking each frontier node up in the completion-ordered results. -/
def mergeResults (results : List (GNode × Except GErr Update)) :
    List GNode → State → Except GErr State
  | [], s => Except.ok s
  | n :: rest, s =>
      match results.find? (fun p => decide (p.1 = n)) with
      | none => Except.error GErr.missingTask
      | some (_, Except.error e) => Except.error e
      | some (_, Except.ok u) => mergeResults results rest (applyUpdate s u)

/-- Declared-order merging without the completion-order indirection; the
canonical form of `mergeResults`. -/
def mergeResultsCanon (f : GNode → Except GErr Update) :
    List GNode → State → Except GErr State
  | [], s => Except.ok s
  | n :: rest, s =>
      match f n with
      | Except.error e => Except.error e
      | Except.ok u => mergeResultsCanon f rest (applyUpdate s u)

/-- Pick the `i`-th permutation of `l` (wrapping around): the completion
order of the frontier's concurrent tasks under a simulated scheduling. -/
def permAt {α : Type} (l : List α) (i : Nat) : List α :=
  match l.permutations.get? (i % l.permutations.length) with
  | some p => p
  | none => l

/-- Modelled from the spec: one executor superstep (spec section 4.3).
All frontier tasks read the same pre-superstep state; they complete in
the order `ord`; their updates are merged in declared (frontier) order;
the next frontier is computed from the post-merge state. -/
def superstep (t : Tasks) (ord : List GNode) (frontier : List GNode) (s : State) :
    Except GErr (State × List GNode) :=
  match mergeResults (ord.map (fun n => (n, nodeFn t n s))) frontier s with
  | Except.error e => Except.error e
  | Except.ok s' =>
      match nextFrontier s' frontier [] with
      | Except.error e => Except.error e
      | Except.ok fr => Except.ok (s', fr)

/-- The canonical superstep (completion order = declared order). -/
def superstepCanon (t : Tasks) (frontier : List GNode) (s : State) :
    Except GErr (State × List GNode) :=
  match mergeResultsCanon (fun n => nodeFn t n s) frontier s with
  | Except.error e => Except.error e
  | Except.ok s' =>
      match nextFrontier s' frontier [] with
      | Except.error e => Except.error e
      | Except.ok fr => Except.ok (s', fr)

/-- Modelled from the spec: the executor's worklist loop.  `sched` picks
the simulated completion order of each superstep's frontier; the trace
records each executed frontier with its pre-superstep state. -/
def runG (t : Tasks) (sched : Nat → Nat) :
    Nat → Nat → List GNode → State → List (List GNode × State) →
      Except GErr (State × List (List GNode × State))
  | 0, _, _, _, _ => Except.error GErr.fuelExhausted
  | Nat.succ fuel, k, frontier, s, tr =>
      match frontier with
      | [] => Except.ok (s, tr.reverse)
      | n :: rest =>
          match superstep t (permAt (n :: rest) (sched k)) (n :: rest) s with
          | Except.error e => Except.error e
          | Except.ok (s', fr') =>
              runG t sched fuel (k + 1) fr' s' (((n :: rest), s) :: tr)

/-- The canonical executor loop (completion order = declared order). -/
def runGCanon (t : Tasks) :
    Nat → List GNode → State → List (List GNode × State) →
      Except GErr (State × List (List GNode × State))
  | 0, _, _, _ => Except.error GErr.fuelExhausted
  | Nat.succ fuel, frontier, s, tr =>
      match frontier with
      | [] => Except.ok (s, tr.reverse)
      | n :: rest =>
          match superstepCanon t (n :: rest) s with
          | Except.error e => Except.error e
          | Except.ok (s', fr') =>
              runGCanon t fuel fr' s' (((n :: rest), s) :: tr)

/-- `app.invoke`: execution starts at `classify_question`
(`graph.add_edge(START, "classify_question")`). -/
def invoke (t : Tasks) (sched : Nat → Nat) (fuel : Nat) (s0 : State) :
    Except GErr (State × List (List GNode × State)) :=
  runG t sched fuel 0 [GNode.classify_question] s0 []

/-- The `question` value observed by the fan-out branches: the initial
question overwritten by `generate_question_html` with the generated html. -/
def questionAfterHtml (t : Tasks) (s0 : State) : Question :=
  { s0.question with question_html := t.question_html_task s0.question s0.isAdaptive }

end Gestalt

/-- A concrete question. -/
def qEx : Question :=
  ⟨"A car is traveling at a constant speed of 100mph for 5 hours.", none, none, ""⟩

/-- A classifier stub whose classification result indicates adaptive. -/
def clsAdaptive : QuestionMetadataGraph.Classifier :=
  fun _ => ⟨"Kinematics", [], [], true⟩

/-- Concrete task stubs for the top-level graph. -/
def tasksEx : Gestalt.Tasks :=
  ⟨clsAdaptive, fun _ _ => "qhtml", fun _ _ => "shtml", fun _ _ => "js-code",
    fun _ _ => "py-code"⟩

/-- A trivial simulated schedule. -/
def schedZero : Nat → Nat := fun _ => 0

/-- A concrete top-level initial state whose caller-supplied `isAdaptive`
is `false`. -/
def gS0 : Gestalt.State := ⟨qEx, none, false, emptyDict⟩

/-- A concrete metadata-graph state with a caller-supplied `isAdaptive`. -/
def mStateOverride : QuestionMetadataGraph.State :=
  { question := qEx, metadata := none, isAdaptive := some false }

/-- A concrete full update for the validation state. -/
def vUpdFull : CodeValidation.Update :=
  { prompt := some "p2", generated_code := some "g2",
    validation_errors := some ["e2"], refinement_count := some 2,
    final_code := some (some "f2") }

/-- The empty update for the validation state. -/
def vUpdNone : CodeValidation.Update := {}

/-- A concrete full update for the top-level state. -/
def gUpdFull : Gestalt.Update :=
  { question := some qEx, metadata := some (some ⟨"T", [], [], false⟩),
    files := some (dictSingle "a.txt" "a") }

/-- The empty update for the top-level state. -/
def gUpdNone : Gestalt.Update := {}

namespace CodeValidation

theorem runV_fin (critic : CriticModel) (gen : GenModel) (n : Nat) (s : State)
    (tr : List VNode) (gouts : List String) :
    runV critic gen (n + 1) VNode.fin s tr gouts =
      Except.ok ⟨s, tr.reverse, gouts.reverse⟩ := rfl

theorem runV_generate (critic : CriticModel) (gen : GenModel) (n : Nat) (s : State)
    (tr : List VNode) (gouts : List String) :
    runV critic gen (n + 1) VNode.generate_code s tr gouts =
      runV critic gen n VNode.validate_code (generate_code gen s)
        (VNode.generate_code :: tr) ((generate_code gen s).generated_code :: gouts) := rfl

theorem runV_accept (critic : CriticModel) (gen : GenModel) (n : Nat) (s : State)
    (tr : List VNode) (gouts : List String) :
    runV critic gen (n + 1) VNode.accept s tr gouts =
      runV critic gen n VNode.fin (accept_code s) (VNode.accept :: tr) gouts := rfl

theorem runV_validate (critic : CriticModel) (gen : GenModel) (n : Nat) (s : State)
    (tr : List VNode) (gouts : List String) (errs : List String)
    (h : critic s = Except.ok errs) :
    runV critic gen (n + 1) VNode.validate_code s tr gouts =
      runV critic gen n
        (decisionTarget (should_refine
          { s with validation_errors := operatorAdd s.validation_errors errs }))
        { s with validation_errors := operatorAdd s.validation_errors errs }
        (VNode.validate_code :: tr) gouts := by
  simp [runV, validate_code, h]

theorem runV_validate_err (critic : CriticModel) (gen : GenModel) (n : Nat) (s : State)
    (tr : List VNode) (gouts : List String) (e : Unit)
    (h : critic s = Except.error e) :
    runV critic gen (n + 1) VNode.validate_code s tr gouts =
      Except.error RunError.taskFailed := by
  simp [runV, validate_code, h]

theorem isEmpty_operatorAdd_right {α : Type} (a b : List α) (h : b ≠ []) :
    (operatorAdd a b).isEmpty = false := by
  cases b with
  | nil => exact absurd rfl h
  | cons x xs => cases a <;> rfl

end CodeValidation

/-- C1: if the critic reports at least one error on every attempt, the
validation loop terminates after exactly 3 executions of `generate_code`
(never a 4th), `refinement_count` ends at exactly 3, and the accepted
`final_code` is the artifact produced by the 3rd (last) generation
attempt. -/
theorem c1_refinement_termination (critic : CodeValidation.CriticModel)
    (gen : CodeValidation.GenModel) (errsOf : CodeValidation.State → List String)
    (s0 : CodeValidation.State) (n : Nat)
    (h0 : s0.refinement_count = 0)
    (hc : ∀ s, critic s = Except.ok (errsOf s))
    (hne : ∀ s, errsOf s ≠ []) :
    ∃ r, CodeValidation.invoke critic gen (n + 9) s0 = Except.ok r ∧
      r.trace.count CodeValidation.VNode.generate_code = 3 ∧
      r.final.refinement_count = 3 ∧
      r.genOutputs.length = 3 ∧
      r.final.final_code = some r.final.generated_code ∧
      r.genOutputs.getLast? = some r.final.generated_code := by
  rw [CodeValidation.invoke,
    show n + 9 = n + 1 + 1 + 1 + 1 + 1 + 1 + 1 + 1 + 1 from rfl]
  simp [CodeValidation.runV_validate _ _ _ _ _ _ _ (hc _),
    CodeValidation.runV_generate, CodeValidation.runV_accept,
    CodeValidation.runV_fin, CodeValidation.should_refine,
    CodeValidation.decisionTarget, CodeValidation.generate_code,
    CodeValidation.accept_code, CodeValidation.isEmpty_operatorAdd_right _ _ (hne _),
    h0]

/-- C2 (evaluation at the failing input): with a critic that reports no
errors, the compiled graph executes `validate_code` first and accepts
immediately — zero executions of `generate_code`, and the accepted
artifact is the initial `generated_code` (`"seed"`). -/
theorem c2_starts_with_validation_eval :
    CodeValidation.invoke CodeValidation.passCritic CodeValidation.echoGen 9
        CodeValidation.seedState =
      Except.ok ⟨⟨"Refactor this function.", "seed", [], 0, some "seed"⟩,
        [CodeValidation.VNode.validate_code, CodeValidation.VNode.accept], []⟩ := by
  rfl

/-- C4 (counterexample): when the critic itself fails on the first
critique, `invoke` fails with a task error — the artifact is not accepted
and the failure is surfaced to the caller, contradicting the claimed
fail-open acceptance. -/
theorem c4_counterexample :
    CodeValidation.invoke CodeValidation.failCritic CodeValidation.echoGen 9
        CodeValidation.seedState =
      Except.error CodeValidation.RunError.taskFailed := by
  rfl

/-- C4 (amended): a critic failure is not handled locally — if the critic
errors on the first critique, the whole invocation fails with a task
error and no artifact is accepted. -/
theorem c4_amended_critic_failure_propagates (critic : CodeValidation.CriticModel)
    (gen : CodeValidation.GenModel) (s0 : CodeValidation.State) (n : Nat) (e : Unit)
    (h : critic s0 = Except.error e) :
    CodeValidation.invoke critic gen (n + 1) s0 =
      Except.error CodeValidation.RunError.taskFailed := by
  rw [CodeValidation.invoke, CodeValidation.runV_validate_err critic gen n s0 [] [] e h]

/-- Witness for C1 at a concrete critic stub, generator and initial state. -/
theorem c1_refinement_termination_witness :
    ∃ r, CodeValidation.invoke CodeValidation.errCritic CodeValidation.echoGen 9
        CodeValidation.seedState = Except.ok r ∧
      r.trace.count CodeValidation.VNode.generate_code = 3 ∧
      r.final.refinement_count = 3 ∧
      r.genOutputs.length = 3 ∧
      r.final.final_code = some r.final.generated_code ∧
      r.genOutputs.getLast? = some r.final.generated_code :=
  c1_refinement_termination CodeValidation.errCritic CodeValidation.echoGen
    (fun _ => ["missing error handling"]) CodeValidation.seedState 0 rfl
    (fun _ => rfl) (fun _ => by simp)

/-- Witness for the amended C4 at a concrete failing critic. -/
theorem c4_amended_critic_failure_propagates_witness :
    CodeValidation.invoke CodeValidation.failCritic CodeValidation.echoGen 1
        CodeValidation.seedState =
      Except.error CodeValidation.RunError.taskFailed :=
  c4_amended_critic_failure_propagates CodeValidation.failCritic
    CodeValidation.echoGen CodeValidation.seedState 0 () rfl

namespace Gestalt

theorem find_map_pair {α β : Type} [DecidableEq α] (f : α → β) (l : List α) (n : α)
    (h : n ∈ l) :
    (l.map (fun m => (m, f m))).find? (fun p => decide (p.1 = n)) = some (n, f n) := by
  induction l with
  | nil => cases h
  | cons m rest ih =>
      by_cases hmn : m = n
      · subst hmn
        simp [List.find?]
      · have hr : n ∈ rest := by
          rcases List.mem_cons.mp h with hm | hm
          · exact absurd hm.symm hmn
          · exact hm
        simp [List.find?, hmn, ih hr]

theorem permAt_perm {α : Type} (l : List α) (i : Nat) : (permAt l i).Perm l := by
  unfold permAt
  cases h : l.permutations.get? (i % l.permutations.length) with
  | none => exact List.Perm.refl l
  | some p => exact List.mem_permutations.mp (List.get?_mem h)

theorem mergeResults_eq_canon (t : Tasks) (s0 : State) (ord : List GNode) :
    ∀ (rest : List GNode), (∀ n ∈ rest, n ∈ ord) → ∀ (s : State),
      mergeResults (ord.map (fun n => (n, nodeFn t n s0))) rest s =
        mergeResultsCanon (fun n => nodeFn t n s0) rest s := by
  intro rest
  induction rest with
  | nil => intro _ s; rfl
  | cons n rest ih =>
      intro h s
      have hn : n ∈ ord := h n (List.mem_cons_self n rest)
      rw [mergeResults, mergeResultsCanon, find_map_pair _ _ _ hn]
      cases nodeFn t n s0 with
      | error e => rfl
      | ok u => exact ih (fun m hm => h m (List.mem_cons_of_mem n hm)) (applyUpdate s u)

theorem superstep_eq_canon (t : Tasks) (i : Nat) (frontier : List GNode) (s : State) :
    superstep t (permAt frontier i) frontier s = superstepCanon t frontier s := by
  unfold superstep superstepCanon
  rw [mergeResults_eq_canon t s (permAt frontier i) frontier
    (fun n hn => ((permAt_perm frontier i).mem_iff).mpr hn)]

theorem runG_eq_canon (t : Tasks) (sched : Nat → Nat) :
    ∀ (fuel k : Nat) (frontier : List GNode) (s : State)
      (tr : List (List GNode × State)),
      runG t sched fuel k frontier s tr = runGCanon t fuel frontier s tr := by
  intro fuel
  induction fuel with
  | zero => intro k frontier s tr; rfl
  | succ fuel ih =>
      intro k frontier s tr
      cases frontier with
      | nil => rfl
      | cons n rest =>
          rw [runG, runGCanon, superstep_eq_canon t (sched k)]
          cases superstepCanon t (n :: rest) s with
          | error e => rfl
          | ok p => exact ih (k + 1) p.2 p.1 ((n :: rest, s) :: tr)

theorem runGCanon_nil (t : Tasks) (n : Nat) (s : State) (tr : List (List GNode × State)) :
    runGCanon t (n + 1) [] s tr = Except.ok (s, tr.reverse) := rfl

theorem runGCanon_cons (t : Tasks) (n : Nat) (x : GNode) (xs : List GNode) (s : State)
    (tr : List (List GNode × State)) :
    runGCanon t (n + 1) (x :: xs) s tr =
      match superstepCanon t (x :: xs) s with
      | Except.error e => Except.error e
      | Except.ok (s', fr') => runGCanon t n fr' s' (((x :: xs), s) :: tr) := rfl

end Gestalt

/-- C6: invoking the compiled top-level graph twice with the same tasks,
fuel and initial state yields identical final states (all fields,
including the Accumulate `files` field) regardless of the simulated
completion order of concurrent branches: update merging follows declared
edge order, not completion order. -/
theorem c6_determinism (t : Gestalt.Tasks) (s0 : Gestalt.State) (fuel : Nat)
    (sched sched' : Nat → Nat) :
    Gestalt.invoke t sched fuel s0 = Gestalt.invoke t sched' fuel s0 := by
  rw [Gestalt.invoke, Gestalt.invoke, Gestalt.runG_eq_canon, Gestalt.runG_eq_canon]

/-- C10: in the question-metadata graph, a caller-supplied `isAdaptive`
overrides the classifier's flag in the returned metadata; when the caller
supplies `none`, the classifier's flag is kept unchanged. -/
theorem c10_adaptive_override (classifier : QuestionMetadataGraph.Classifier)
    (s : QuestionMetadataGraph.State) :
    (∀ v, s.isAdaptive = some v →
      (QuestionMetadataGraph.invoke classifier s).metadata =
        some { classifier s.question.question_text with isAdaptive := v }) ∧
    (s.isAdaptive = none →
      (QuestionMetadataGraph.invoke classifier s).metadata =
        some (classifier s.question.question_text)) := by
  constructor
  · intro v h
    simp [QuestionMetadataGraph.invoke,
      QuestionMetadataGraph.generate_question_metadata, h]
  · intro h
    simp [QuestionMetadataGraph.invoke,
      QuestionMetadataGraph.generate_question_metadata, h]

/-- Witness for C10 at a concrete classifier and state. -/
theorem c10_adaptive_override_witness :
    (QuestionMetadataGraph.invoke clsAdaptive mStateOverride).metadata =
      some { clsAdaptive mStateOverride.question.question_text with
        isAdaptive := false } :=
  (c10_adaptive_override clsAdaptive mStateOverride).1 false rfl

/-- C5 (counterexample): `classify_question` invokes the metadata graph
without supplying `isAdaptive`; the pydantic state silently substitutes
the declared default `none`, and `generate_question_metadata` reads the
defaulted field and completes normally (no failure, no override) — and
`improve_code`'s read of a missing `server_js` yields `""` instead of
failing. -/
theorem c5_counterexample :
    (Gestalt.classifyInputState qEx).isAdaptive = none ∧
    QuestionMetadataGraph.invoke clsAdaptive (Gestalt.classifyInputState qEx) =
      ⟨qEx, some ⟨"Kinematics", [], [], true⟩, none⟩ ∧
    ServerJsGraph.generatedCodeRead none = "" :=
  ⟨rfl, rfl, rfl⟩

/-- C5 (amended): a read of a state field that no ancestor wrote and
that was not supplied in the initial state does not necessarily fail
fast, and missing fields can be silently defaulted: the metadata graph's
pydantic state substitutes its declared `none` defaults for the
unsupplied `metadata` and `isAdaptive` fields, the classification node
reads the defaulted `isAdaptive` and completes normally (applying no
override), and `improve_code` substitutes `""` for a missing
`server_js`. -/
theorem c5_amended_defaults (classifier : QuestionMetadataGraph.Classifier)
    (q : Question) :
    (Gestalt.classifyInputState q).isAdaptive = none ∧
    (Gestalt.classifyInputState q).metadata = none ∧
    QuestionMetadataGraph.invoke classifier (Gestalt.classifyInputState q) =
      ⟨q, some (classifier q.question_text), none⟩ ∧
    ServerJsGraph.generatedCodeRead none = "" :=
  ⟨rfl, rfl, rfl, rfl⟩

/-- C9: every Accumulate combinator declared by the graphs' states is
associative: `operator.add` on `validation_errors` (lists of strings),
`operator.add` on `retrieved_documents` (lists of documents), and the
right biased dict union used for `files`. -/
theorem c9_accumulate_assoc :
    (∀ a b c : List String,
      operatorAdd (operatorAdd a b) c = operatorAdd a (operatorAdd b c)) ∧
    (∀ a b c : List Document,
      operatorAdd (operatorAdd a b) c = operatorAdd a (operatorAdd b c)) ∧
    (∀ a b c : PyDict,
      dictMerge (dictMerge a b) c = dictMerge a (dictMerge b c)) := by
  refine ⟨fun a b c => List.append_assoc a b c,
    fun a b c => List.append_assoc a b c, fun a b c => ?_⟩
  funext k
  cases hc : c k <;> cases hb : b k <;> simp [dictMerge, hc, hb]

/-- C8: the state-merge contract of both embedded state containers: every
field present in a partial update takes the update's value when its
policy is Overwrite, is combined with the declared reducer
(`operator.add` on `validation_errors`, the right biased dict union on
`files`) when its policy is Accumulate, and every absent field passes
through unchanged from the base. -/
theorem c8_merge_contract (b : CodeValidation.State) (u : CodeValidation.Update)
    (gb : Gestalt.State) (gu : Gestalt.Update) :
    (∀ v, u.prompt = some v → (CodeValidation.applyUpdate b u).prompt = v) ∧
    (∀ v, u.generated_code = some v →
      (CodeValidation.applyUpdate b u).generated_code = v) ∧
    (∀ v, u.refinement_count = some v →
      (CodeValidation.applyUpdate b u).refinement_count = v) ∧
    (∀ v, u.final_code = some v → (CodeValidation.applyUpdate b u).final_code = v) ∧
    (∀ errs, u.validation_errors = some errs →
      (CodeValidation.applyUpdate b u).validation_errors =
        operatorAdd b.validation_errors errs) ∧
    (u.prompt = none → (CodeValidation.applyUpdate b u).prompt = b.prompt) ∧
    (u.generated_code = none →
      (CodeValidation.applyUpdate b u).generated_code = b.generated_code) ∧
    (u.refinement_count = none →
      (CodeValidation.applyUpdate b u).refinement_count = b.refinement_count) ∧
    (u.final_code = none →
      (CodeValidation.applyUpdate b u).final_code = b.final_code) ∧
    (u.validation_errors = none →
      (CodeValidation.applyUpdate b u).validation_errors = b.validation_errors) ∧
    (∀ q, gu.question = some q → (Gestalt.applyUpdate gb gu).question = q) ∧
    (∀ m, gu.metadata = some m → (Gestalt.applyUpdate gb gu).metadata = m) ∧
    (∀ f, gu.files = some f →
      (Gestalt.applyUpdate gb gu).files = dictMerge gb.files f) ∧
    (gu.question = none → (Gestalt.applyUpdate gb gu).question = gb.question) ∧
    (gu.metadata = none → (Gestalt.applyUpdate gb gu).metadata = gb.metadata) ∧
    (gu.files = none → (Gestalt.applyUpdate gb gu).files = gb.files) ∧
    (Gestalt.applyUpdate gb gu).isAdaptive = gb.isAdaptive := by
  refine ⟨fun v h => ?_, fun v h => ?_, fun v h => ?_, fun v h => ?_,
    fun errs h => ?_, fun h => ?_, fun h => ?_, fun h => ?_, fun h => ?_,
    fun h => ?_, fun q h => ?_, fun m h => ?_, fun f h => ?_, fun h => ?_,
    fun h => ?_, fun h => ?_, ?_⟩ <;>
  simp [CodeValidation.applyUpdate, Gestalt.applyUpdate, *]

/-- Witness for C8: each clause of the merge contract applied to concrete
full and empty updates over concrete base states. -/
theorem c8_merge_contract_witness :
    (CodeValidation.applyUpdate CodeValidation.seedState vUpdFull).prompt = "p2" ∧
    (CodeValidation.applyUpdate CodeValidation.seedState vUpdFull).generated_code
      = "g2" ∧
    (CodeValidation.applyUpdate CodeValidation.seedState vUpdFull).refinement_count
      = 2 ∧
    (CodeValidation.applyUpdate CodeValidation.seedState vUpdFull).final_code
      = some "f2" ∧
    (CodeValidation.applyUpdate CodeValidation.seedState vUpdFull).validation_errors
      = operatorAdd CodeValidation.seedState.validation_errors ["e2"] ∧
    (CodeValidation.applyUpdate CodeValidation.seedState vUpdNone).prompt
      = CodeValidation.seedState.prompt ∧
    (CodeValidation.applyUpdate CodeValidation.seedState vUpdNone).generated_code
      = CodeValidation.seedState.generated_code ∧
    (CodeValidation.applyUpdate CodeValidation.seedState vUpdNone).refinement_count
      = CodeValidation.seedState.refinement_count ∧
    (CodeValidation.applyUpdate CodeValidation.seedState vUpdNone).final_code
      = CodeValidation.seedState.final_code ∧
    (CodeValidation.applyUpdate CodeValidation.seedState vUpdNone).validation_errors
      = CodeValidation.seedState.validation_errors ∧
    (Gestalt.applyUpdate gS0 gUpdFull).question = qEx ∧
    (Gestalt.applyUpdate gS0 gUpdFull).metadata = some ⟨"T", [], [], false⟩ ∧
    (Gestalt.applyUpdate gS0 gUpdFull).files =
      dictMerge gS0.files (dictSingle "a.txt" "a") ∧
    (Gestalt.applyUpdate gS0 gUpdNone).question = gS0.question ∧
    (Gestalt.applyUpdate gS0 gUpdNone).metadata = gS0.metadata ∧
    (Gestalt.applyUpdate gS0 gUpdNone).files = gS0.files ∧
    (Gestalt.applyUpdate gS0 gUpdFull).isAdaptive = gS0.isAdaptive := by
  obtain ⟨h1, h2, h3, h4, h5, h6, h7, h8, h9, h10, -, -, -, -, -, -, -⟩ :=
    c8_merge_contract CodeValidation.seedState vUpdFull gS0 gUpdNone
  obtain ⟨-, -, -, -, -, n1, n2, n3, n4, n5, q1, q2, q3, -, -, -, a1⟩ :=
    c8_merge_contract CodeValidation.seedState vUpdNone gS0 gUpdFull
  exact ⟨h1 "p2" rfl, h2 "g2" rfl, h3 2 rfl, h4 (some "f2") rfl, h5 ["e2"] rfl,
    n1 rfl, n2 rfl, n3 rfl, n4 rfl, n5 rfl,
    q1 qEx rfl, q2 (some ⟨"T", [], [], false⟩) rfl,
    q3 (dictSingle "a.txt" "a") rfl,
    (c8_merge_contract CodeValidation.seedState vUpdFull gS0 gUpdNone).2.2.2.2.2.2.2.2.2.2.2.2.2.1 rfl,
    (c8_merge_contract CodeValidation.seedState vUpdFull gS0 gUpdNone).2.2.2.2.2.2.2.2.2.2.2.2.2.2.1 rfl,
    (c8_merge_contract CodeValidation.seedState vUpdFull gS0 gUpdNone).2.2.2.2.2.2.2.2.2.2.2.2.2.2.2.1 rfl,
    a1⟩

/-- C3 (counterexample): with a classifier whose classification result
indicates adaptive (`isAdaptive = true`) but a caller-supplied top-level
`isAdaptive` of `false`, the router dispatches exactly one branch
(`generate_solution_html`) — the branch width follows the caller's flag,
not the classification result. -/
theorem c3_counterexample :
    ∃ sf tr, Gestalt.invoke tasksEx schedZero 9 gS0 = Except.ok (sf, tr) ∧
      sf.metadata = some ⟨"Kinematics", [], [], true⟩ ∧
      tr.map Prod.fst =
        [[Gestalt.GNode.classify_question], [Gestalt.GNode.generate_question_html],
          [Gestalt.GNode.generate_solution_html], [Gestalt.GNode.generate_info_json]] :=
  ⟨_, _, rfl, rfl, rfl⟩

/-- C3 (amended): the branch width after the routing node is determined
by the initial state's caller-supplied `isAdaptive` flag: `false`
dispatches exactly `generate_solution_html`; `true` dispatches exactly
`generate_server_py`, `generate_server_js` and `generate_solution_html`. -/
theorem c3_amended_branch_width (t : Gestalt.Tasks) (sched : Nat → Nat)
    (s0 : Gestalt.State) (n : Nat) :
    ∃ sf tr, Gestalt.invoke t sched (n + 5) s0 = Except.ok (sf, tr) ∧
      tr.map Prod.fst =
        [[Gestalt.GNode.classify_question], [Gestalt.GNode.generate_question_html],
          (if s0.isAdaptive then
            [Gestalt.GNode.generate_server_py, Gestalt.GNode.generate_server_js,
              Gestalt.GNode.generate_solution_html]
          else [Gestalt.GNode.generate_solution_html]),
          [Gestalt.GNode.generate_info_json]] := by
  obtain ⟨q0, m0, a0, f0⟩ := s0
  rw [Gestalt.invoke, Gestalt.runG_eq_canon,
    show n + 5 = n + 1 + 1 + 1 + 1 + 1 from rfl]
  cases a0 <;>
    simp [Gestalt.runGCanon_cons, Gestalt.runGCanon_nil, Gestalt.superstepCanon,
      Gestalt.mergeResultsCanon, Gestalt.nodeFn, Gestalt.classify_question,
      Gestalt.generate_question_html, Gestalt.generate_solution_html,
      Gestalt.generate_server_js, Gestalt.generate_server_py,
      Gestalt.generate_info_json, Gestalt.router, Gestalt.successors,
      Gestalt.nextFrontier, Gestalt.dedupAppend, Gestalt.applyUpdate,
      QuestionMetadataGraph.invoke, Gestalt.classifyInputState] <;>
  exact ⟨_, _, ⟨rfl, rfl⟩, rfl⟩

/-- C7: in every invocation of the top-level graph, the join node
`generate_info_json` executes exactly once, in the superstep after all
router-dispatched branches, and the state it observes already contains
the `files` contribution of every dispatched predecessor branch. -/
theorem c7_join_correctness (t : Gestalt.Tasks) (sched : Nat → Nat)
    (s0 : Gestalt.State) (n : Nat) :
    ∃ sf tr sInfo,
      Gestalt.invoke t sched (n + 5) s0 = Except.ok (sf, tr) ∧
      (tr.map Prod.fst).flatten.count Gestalt.GNode.generate_info_json = 1 ∧
      tr.getLast? = some ([Gestalt.GNode.generate_info_json], sInfo) ∧
      (if s0.isAdaptive then
        sInfo.files "server.py" =
            some (t.server_py_task (Gestalt.questionAfterHtml t s0) s0.isAdaptive) ∧
          sInfo.files "server.js" =
            some (t.server_js_task (Gestalt.questionAfterHtml t s0) s0.isAdaptive) ∧
          sInfo.files "solution.html" =
            some (t.solution_html_task (Gestalt.questionAfterHtml t s0) s0.isAdaptive)
      else
        sInfo.files "solution.html" =
          some (t.solution_html_task (Gestalt.questionAfterHtml t s0) s0.isAdaptive)) := by
  obtain ⟨q0, m0, a0, f0⟩ := s0
  rw [Gestalt.invoke, Gestalt.runG_eq_canon,
    show n + 5 = n + 1 + 1 + 1 + 1 + 1 from rfl]
  cases a0 <;>
    simp [Gestalt.runGCanon_cons, Gestalt.runGCanon_nil, Gestalt.superstepCanon,
      Gestalt.mergeResultsCanon, Gestalt.nodeFn, Gestalt.classify_question,
      Gestalt.generate_question_html, Gestalt.generate_solution_html,
      Gestalt.generate_server_js, Gestalt.generate_server_py,
      Gestalt.generate_info_json, Gestalt.router, Gestalt.successors,
      Gestalt.nextFrontier, Gestalt.dedupAppend, Gestalt.applyUpdate,
      QuestionMetadataGraph.invoke, Gestalt.classifyInputState,
      Gestalt.questionAfterHtml] <;>
  refine ⟨_, _, ⟨rfl, rfl⟩, rfl, _, rfl, ?_⟩ <;>
  simp [dictMerge, dictSingle]
